import Mathlib

/-
Verification development for the ReportArchitect tank-inspection calculators.

The JavaScript/TypeScript calculation functions are embedded shallowly:
JS numbers are modelled as rationals (ℚ) wherever the source performs only
ring/field arithmetic and comparisons, and as reals (ℝ) where the source
uses transcendental functions (Math.sqrt, Math.cos, Math.sin, Math.atan).
The JS float value Infinity (produced by lib/calculations.ts) is modelled
with `WithTop ℚ`.  `Math.round x` is `⌊x + 1/2⌋` (JS rounds half toward +∞),
and `Number(x.toFixed(2))` with exact arithmetic is `⌊x*100 + 1/2⌋ / 100`.
-/

namespace ReportArchitect

/-- JS `Math.round`: round to the nearest integer, halves toward +∞. -/
def mathRound (x : ℚ) : ℚ := (⌊x + 1/2⌋ : ℤ)

/-- JS `Math.round` on the real-number model (used by the roof calculator). -/
noncomputable def mathRoundR (x : ℝ) : ℝ := (⌊x + 1/2⌋ : ℤ)

/-- JS `Number(x.toFixed(2))` under exact arithmetic: round to 2 decimals. -/
def toFixed2 (x : ℚ) : ℚ := mathRound (x * 100) / 100

/-! ## client/src/lib/calculations.ts -/

namespace Calculations

/-- Input record of `calculateCorrosionRate` (interface CorrosionCalculationParams). -/
structure CorrosionCalculationParams where
  originalThickness : ℚ
  currentThickness : ℚ
  serviceYears : ℚ
  practicalTmin : ℚ

/-- Output record of `calculateCorrosionRate` (interface CorrosionCalculationResult).
`remainingLife` is `WithTop ℚ` because the source produces the float `Infinity`
when the corrosion rate is not positive. -/
structure CorrosionCalculationResult where
  metalLoss : ℚ
  corrosionRate : ℚ
  remainingMetal : ℚ
  remainingLife : WithTop ℚ

/-- Embedding of `calculateCorrosionRate` from client/src/lib/calculations.ts. -/
def calculateCorrosionRate (params : CorrosionCalculationParams) : CorrosionCalculationResult :=
  let originalMils := params.originalThickness * 1000
  let currentMils := params.currentThickness * 1000
  let practicalTminMils := params.practicalTmin * 1000
  let metalLoss := originalMils - currentMils
  let corrosionRate := if 0 < params.serviceYears then metalLoss / params.serviceYears else 0
  let remainingMetal := currentMils - practicalTminMils
  let remainingLife : WithTop ℚ :=
    if 0 < corrosionRate then ((remainingMetal / corrosionRate : ℚ) : WithTop ℚ) else ⊤
  { metalLoss := metalLoss / 1000
    corrosionRate := corrosionRate
    remainingMetal := remainingMetal / 1000
    remainingLife := max 0 remainingLife }

/-- Output record of `calculateStatistics`. -/
structure StatisticsResult where
  average : ℚ
  maximum : ℚ
  percentile95 : ℚ
deriving DecidableEq

/-- JS `[...a]`: a fresh array holding the same elements. -/
def jsSpreadCopy (l : List ℚ) : List ℚ := l

/-- JS `.sort((a, b) => a - b)`: numeric ascending sort (of the receiver array). -/
def jsSortNumericAsc (l : List ℚ) : List ℚ := l.mergeSort (fun a b => decide (a ≤ b))

/-- JS `Math.max(...l)` for a nonempty argument list (the empty case, which would
give -Infinity, is unreachable behind the source's empty-input guard). -/
def jsMaxList (l : List ℚ) : ℚ :=
  match l with
  | [] => 0
  | x :: xs => xs.foldl max x

/-- Embedding of `calculateStatistics` from client/src/lib/calculations.ts. -/
def calculateStatistics (corrosionRates : List ℚ) : StatisticsResult :=
  if corrosionRates.length = 0 then
    { average := 0, maximum := 0, percentile95 := 0 }
  else
    let sorted := jsSortNumericAsc (jsSpreadCopy corrosionRates)
    let average := corrosionRates.foldl (· + ·) 0 / (corrosionRates.length : ℚ)
    let maximum := jsMaxList corrosionRates
    let index95 := (⌊(95/100 : ℚ) * (sorted.length : ℚ)⌋).toNat
    let percentile95 := sorted.getD (min index95 (sorted.length - 1)) 0
    { average := toFixed2 average
      maximum := toFixed2 maximum
      percentile95 := toFixed2 percentile95 }

/-! A small mutable-array heap model for the frame property of
`calculateStatistics`: JS arrays are references, and `Array.prototype.sort`
mutates its receiver.  The heap is a list of arrays; an array reference is an
index into the heap. -/

/-- Allocate a fresh array on the heap, returning the new heap and the reference. -/
def heapAlloc (h : List (List ℚ)) (v : List ℚ) : List (List ℚ) × ℕ :=
  (h ++ [v], h.length)

/-- Overwrite the array a reference points to (an in-place mutation). -/
def heapSet (h : List (List ℚ)) (r : ℕ) (v : List ℚ) : List (List ℚ) :=
  h.set r v

/-- Read the array a reference points to. -/
def heapGet (h : List (List ℚ)) (r : ℕ) : List ℚ :=
  h.getD r []

/-- Embedding of `calculateStatistics` with the JS array store made explicit.
The parameter `arrRef` is the caller's array reference.  The body allocates a
fresh copy (`[...corrosionRates]`) and applies the mutating `.sort` to that
copy; no operation in the source body mutates the parameter array.  Returns
the heap after the call together with the result. -/
def calculateStatisticsHeap (h : List (List ℚ)) (arrRef : ℕ) :
    List (List ℚ) × StatisticsResult :=
  let corrosionRates := heapGet h arrRef
  if corrosionRates.length = 0 then
    (h, { average := 0, maximum := 0, percentile95 := 0 })
  else
    let alloc := heapAlloc h (jsSpreadCopy (heapGet h arrRef))
    let h1 := alloc.1
    let copyRef := alloc.2
    let h2 := heapSet h1 copyRef (jsSortNumericAsc (heapGet h1 copyRef))
    let sorted := heapGet h2 copyRef
    let average := (heapGet h2 arrRef).foldl (· + ·) 0 / ((heapGet h2 arrRef).length : ℚ)
    let maximum := jsMaxList (heapGet h2 arrRef)
    let index95 := (⌊(95/100 : ℚ) * (sorted.length : ℚ)⌋).toNat
    let percentile95 := sorted.getD (min index95 (sorted.length - 1)) 0
    (h2, { average := toFixed2 average
           maximum := toFixed2 maximum
           percentile95 := toFixed2 percentile95 })

end Calculations

/-! ## Shell calculations form (`calculateShell` in the ShellCalculationsForm component) -/

namespace ShellForm

/-- One row of the shell course table.  A field is `none` when the text input is
empty, in which case the source's `parseFloat(x || "default")` substitutes the
shown default. -/
structure ShellCourseInput where
  courseHeight : Option ℚ
  stressValue : Option ℚ
  originalThickness : Option ℚ
  actualThickness : Option ℚ
  age : Option ℚ

/-- The quantities computed per course by `calculateShell`; field names follow
the local constants of the source.  `tMin`, `corrosionRate` and `remainingLife`
are the raw values, the `...Rounded` fields are the values written back into
the form (the source formats those as strings for display). -/
structure ShellCourseResult where
  H : ℚ
  P : ℚ
  radiusInches : ℚ
  requiredThickness : ℚ
  tMin : ℚ
  tMinRounded : ℚ
  corrosionRate : ℚ
  corrosionRateRounded : ℚ
  remainingLife : ℚ
  remainingLifeRounded : ℚ

/-- The per-course body of `calculateShell` (the `values.courses.map` callback).
`courses` is the full course list (the loop computing `H` reads
`values.courses[i].courseHeight` for `i < index`), `index` the 0-based course
index and `course` the course itself. -/
def shellCourseCalc (fillHeight specificGravity jointEfficiency tankDiameter : ℚ)
    (courses : List ShellCourseInput) (index : ℕ) (course : ShellCourseInput) :
    ShellCourseResult :=
  let courseHeight := course.courseHeight.getD 8
  let stressValue := course.stressValue.getD 26700
  let originalThickness := course.originalThickness.getD (1/2)
  let actualThickness := course.actualThickness.getD (45/100)
  let age := course.age.getD 10
  let H := max 0 ((courses.take index).foldl (fun h c => h - c.courseHeight.getD 8) fillHeight)
  let P := (433/1000) * specificGravity * H
  let radiusInches := tankDiameter * 12 / 2
  let denominator := stressValue * jointEfficiency - (6/10) * P
  let requiredThickness := if 0 < denominator then P * radiusInches / denominator else 0
  let tMin := requiredThickness
  let tMinRounded := max (50/1000) (mathRound (tMin * 1000) / 1000)
  let thicknessLoss := originalThickness - actualThickness
  let corrosionRate := if 0 < age then thicknessLoss / age * 1000 else 0
  let corrosionRateRounded := mathRound (corrosionRate * 100) / 100
  let remainingThickness := actualThickness - tMinRounded
  let remainingLife := if 0 < corrosionRate then remainingThickness / (corrosionRate / 1000) else 999
  let remainingLifeRounded := max 0 (min 999 (mathRound remainingLife))
  { H := H, P := P, radiusInches := radiusInches, requiredThickness := requiredThickness
    tMin := tMin, tMinRounded := tMinRounded
    corrosionRate := corrosionRate, corrosionRateRounded := corrosionRateRounded
    remainingLife := remainingLife, remainingLifeRounded := remainingLifeRounded }

/-- Embedding of `calculateShell` from the shell calculations form: the course
list is mapped with the per-course body, the `courseHeight` default of the
input, the result fields and the clamping exactly as in the source. -/
def calculateShell (fillHeight specificGravity jointEfficiency tankDiameter : ℚ)
    (courses : List ShellCourseInput) : List ShellCourseResult :=
  courses.mapIdx (shellCourseCalc fillHeight specificGravity jointEfficiency tankDiameter courses)

end ShellForm

/-! ## test-shell-calc.js (standalone regression script) -/

namespace TestScript

/-- The `testParams` object shape of test-shell-calc.js. -/
structure TestParams where
  fillHeight : ℚ
  specificGravity : ℚ
  jointEfficiency : ℚ
  tankDiameter : ℚ
  stressValue : ℚ
  originalThickness : ℚ
  actualThickness : ℚ
  age : ℚ

/-- The object returned by the script's `calculateShell`. -/
structure TestResult where
  pressure : ℚ
  requiredThickness : ℚ
  tMin : ℚ
  corrosionRate : ℚ
  remainingLife : ℚ

/-- Embedding of `calculateShell` from test-shell-calc.js.  Unlike the form
component, this implementation adds a flat 0.100 in corrosion allowance to the
required thickness and has no positivity guard on the denominator (division by
zero yields 0 in the ℚ model, where JS would give ±Infinity; no claim touches
that case). -/
def calculateShell (params : TestParams) : TestResult :=
  let H := params.fillHeight
  let P := (433/1000) * params.specificGravity * H
  let radiusInches := params.tankDiameter * 12 / 2
  let requiredThickness :=
    P * radiusInches / (params.stressValue * params.jointEfficiency - (6/10) * P)
  let corrosionAllowance := (100 : ℚ)/1000
  let tMin := requiredThickness + corrosionAllowance
  let thicknessLoss := params.originalThickness - params.actualThickness
  let corrosionRate := if 0 < params.age then thicknessLoss / params.age * 1000 else 0
  let remainingThickness := params.actualThickness - tMin
  let remainingLife := if 0 < corrosionRate then remainingThickness / (corrosionRate / 1000) else 999
  { pressure := P, requiredThickness := requiredThickness, tMin := tMin
    corrosionRate := corrosionRate, remainingLife := remainingLife }

end TestScript

/-! ## Roof calculations form (`calculateRoof` in the RoofCalculationsForm component).
The rafter-supported deck minimum thickness uses `Math.sqrt`, so this
calculator is modelled over ℝ. -/

namespace RoofForm

/-- The inputs read by `calculateRoof`; `none` stands for an empty text field,
replaced by the source's `parseFloat(x || "default")` default. -/
structure RoofInputs where
  roofPlateThickness : Option ℚ
  roofPlateActual : Option ℚ
  deckPlateThickness : Option ℚ
  deckPlateActual : Option ℚ
  roofAge : Option ℚ
  liveLoad : Option ℚ
  snowLoad : Option ℚ
  rafterSpacing : Option ℚ
  supportedByRafters : String

/-- The values `calculateRoof` writes back into the form.  The corrosion-rate
fields are the 2-decimal rounded values; the remaining-life fields are the
integer-rounded values capped by `Math.min(999, ...)`. -/
structure RoofResult where
  tMinDeck : ℝ
  tMinRoof : ℝ
  corrosionRateDeck : ℝ
  corrosionRateRoof : ℝ
  corrosionRateDeckRounded : ℝ
  corrosionRateRoofRounded : ℝ
  remainingLifeDeck : ℝ
  remainingLifeRoof : ℝ
  remainingLifeDeckOut : ℝ
  remainingLifeRoofOut : ℝ

/-- Embedding of `calculateRoof` from the roof calculations form. -/
noncomputable def calculateRoof (v : RoofInputs) : RoofResult :=
  let roofPlateThickness : ℝ := (v.roofPlateThickness.getD (250/1000) : ℚ)
  let roofPlateActual : ℝ := (v.roofPlateActual.getD (225/1000) : ℚ)
  let deckPlateThickness : ℝ := (v.deckPlateThickness.getD (437/1000) : ℚ)
  let deckPlateActual : ℝ := (v.deckPlateActual.getD (400/1000) : ℚ)
  let roofAge : ℝ := (v.roofAge.getD 20 : ℚ)
  let liveLoad : ℝ := (v.liveLoad.getD 25 : ℚ)
  let snowLoad : ℝ := (v.snowLoad.getD 0 : ℚ)
  let rafterSpacing : ℝ := (v.rafterSpacing.getD 5 : ℚ)
  let tMinDeck0 : ℝ :=
    if v.supportedByRafters = "yes" then
      Real.sqrt ((liveLoad + snowLoad) * (rafterSpacing * 12) ^ 2 / (30000 * (48/10)))
    else (94 : ℝ)/1000
  let tMinDeck := max ((94 : ℝ)/1000) (mathRoundR (tMinDeck0 * 1000) / 1000)
  let tMinRoof := (94 : ℝ)/1000
  let corrosionRateDeck :=
    if 0 < roofAge then (deckPlateThickness - deckPlateActual) / roofAge * 1000 else 0
  let corrosionRateRoof :=
    if 0 < roofAge then (roofPlateThickness - roofPlateActual) / roofAge * 1000 else 0
  let remainingLifeDeck :=
    if 0 < corrosionRateDeck then (deckPlateActual - tMinDeck) / (corrosionRateDeck / 1000) else 999
  let remainingLifeRoof :=
    if 0 < corrosionRateRoof then (roofPlateActual - tMinRoof) / (corrosionRateRoof / 1000) else 999
  { tMinDeck := tMinDeck, tMinRoof := tMinRoof
    corrosionRateDeck := corrosionRateDeck, corrosionRateRoof := corrosionRateRoof
    corrosionRateDeckRounded := mathRoundR (corrosionRateDeck * 100) / 100
    corrosionRateRoofRounded := mathRoundR (corrosionRateRoof * 100) / 100
    remainingLifeDeck := remainingLifeDeck, remainingLifeRoof := remainingLifeRoof
    remainingLifeDeckOut := min 999 (mathRoundR remainingLifeDeck)
    remainingLifeRoofOut := min 999 (mathRoundR remainingLifeRoof) }

end RoofForm

/-! ## Nozzle CML form (`calculateNozzleMetrics` and `calculateNozzleTmin`).
The calendar-date handling (`yearsBetween` from the two inspection dates, and
the next-inspection date formatting) is arithmetic on date values; the elapsed
time is taken here as the rational input `yearsBetween`, and the
next-inspection offset is kept as a number of years. -/

namespace NozzleCML

/-- The fields of a nozzle CML record read by the calculation.  `nozzleSize` is
the `parseFloat(size) || 0` value (`none` for an unparsable size, which the
source maps to 0). -/
structure NozzleRecord where
  nozzleSize : Option ℚ
  nozzleSchedule : String
  previousThickness : ℚ
  currentThickness : ℚ

/-- The calculated fields `calculateNozzleMetrics` writes back on a record. -/
structure NozzleResult where
  tMin : ℚ
  corrosionRate : ℚ
  remainingLife : ℚ
  nextInspectionYears : ℚ

/-- The `scheduleFactors` lookup object of `calculateNozzleTmin`. -/
def scheduleFactors : List (String × ℚ) :=
  [("10", 65/1000), ("20", 75/1000), ("30", 85/1000), ("40", 95/1000), ("STD", 95/1000),
   ("60", 110/1000), ("80", 125/1000), ("XS", 125/1000), ("120", 150/1000),
   ("160", 175/1000), ("XXS", 200/1000)]

/-- Embedding of `calculateNozzleTmin`: size times a schedule factor (default
factor 0.095 for an unknown schedule), rounded to 3 decimals. -/
def calculateNozzleTmin (size : Option ℚ) (schedule : String) : ℚ :=
  let sizeInches := size.getD 0
  let factor := ((scheduleFactors.lookup schedule).getD (95/1000))
  mathRound (sizeInches * factor * 1000) / 1000

/-- Embedding of the per-record body of `calculateNozzleMetrics`
(`formData.records.map` callback), given the elapsed `yearsBetween`. -/
def calculateNozzleMetrics (yearsBetween : ℚ) (record : NozzleRecord) : NozzleResult :=
  let thicknessLoss := (record.previousThickness - record.currentThickness) * 1000
  let corrosionRate := if 0 < yearsBetween then thicknessLoss / yearsBetween else 0
  let tMin := calculateNozzleTmin record.nozzleSize record.nozzleSchedule
  let remainingThickness := record.currentThickness - tMin
  let remainingLife := if 0 < corrosionRate then remainingThickness * 1000 / corrosionRate else 999
  let halfLife := remainingLife / 2
  { tMin := tMin
    corrosionRate := mathRound (corrosionRate * 100) / 100
    remainingLife := mathRound (remainingLife * 10) / 10
    nextInspectionYears := min halfLife 10 }

end NozzleCML

/-! ## Settlement survey form (part of the SettlementSurveyForm component).
The planar-tilt fit uses `Math.cos`, `Math.sin`, `Math.sqrt` and `Math.atan`,
so it is modelled over ℝ; all remaining settlement metrics are plain rational
arithmetic. -/

namespace Settlement

/-- An elevation point record (interface ElevationPoint); `id` is omitted as it
never enters a computation. -/
structure ElevationPoint where
  position : ℚ
  previousElevation : ℚ
  currentElevation : ℚ
  settlement : ℚ
  distance : ℚ

/-- Embedding of `calculatePlanarTilt`: least-squares plane through
`(cos θ, sin θ, settlement)` and the tilt angle of that plane in degrees.
Fewer than 3 points, or a vanishing normal-equations determinant, short-circuit
to 0. -/
noncomputable def calculatePlanarTilt (points : List ElevationPoint) : ℝ :=
  let n := points.length
  if n < 3 then 0 else
  let xyz : List (ℝ × ℝ × ℝ) := points.map fun point =>
    let angle := (point.position : ℝ) * Real.pi / 180
    (Real.cos angle, Real.sin angle, (point.settlement : ℝ))
  let sumX := (xyz.map fun t => t.1).sum
  let sumY := (xyz.map fun t => t.2.1).sum
  let sumZ := (xyz.map fun t => t.2.2).sum
  let sumXX := (xyz.map fun t => t.1 * t.1).sum
  let sumYY := (xyz.map fun t => t.2.1 * t.2.1).sum
  let sumXY := (xyz.map fun t => t.1 * t.2.1).sum
  let sumXZ := (xyz.map fun t => t.1 * t.2.2).sum
  let sumYZ := (xyz.map fun t => t.2.1 * t.2.2).sum
  let denominator := (n : ℝ) * (sumXX * sumYY - sumXY * sumXY)
    - sumX * (sumX * sumYY - sumY * sumXY) + sumY * (sumX * sumXY - sumY * sumXX)
  if denominator = 0 then 0 else
  let a := (sumXZ * ((n : ℝ) * sumYY - sumY * sumY) - sumYZ * ((n : ℝ) * sumXY - sumX * sumY)
    + sumZ * (sumX * sumY - sumY * sumXY)) / denominator
  let b := (sumYZ * ((n : ℝ) * sumXX - sumX * sumX) - sumXZ * ((n : ℝ) * sumXY - sumX * sumY)
    + sumZ * (sumX * sumY - sumX * sumXY)) / denominator
  Real.arctan (Real.sqrt (a * a + b * b)) * (180 / Real.pi)

/-- Embedding of `calculateOutOfPlaneSettlement`: the standard deviation of the
per-point settlements (the `planarTilt` argument is unused in the source too). -/
noncomputable def calculateOutOfPlaneSettlement (points : List ElevationPoint)
    (planarTilt : ℝ) : ℝ :=
  let settlements := points.map fun p => (p.settlement : ℝ)
  let mean := settlements.foldl (· + ·) 0 / (settlements.length : ℝ)
  let variance := (settlements.map fun s => (s - mean) ^ 2).foldl (· + ·) 0
    / (settlements.length : ℝ)
  Real.sqrt variance

/-- JS `Math.min(...l)` for a nonempty list (empty unreachable behind the guard). -/
def jsMinList (l : List ℚ) : ℚ :=
  match l with
  | [] => 0
  | x :: xs => xs.foldl min x

/-- The metrics `calculateSettlementMetrics` stores into the form state. -/
structure SettlementMetrics where
  maxSettlement : ℚ
  minSettlement : ℚ
  differentialSettlement : ℚ
  tiltPercentage : ℚ
  uniformSettlement : ℚ
  planarTilt : ℝ
  outOfPlaneSettlement : ℝ

/-- Embedding of `calculateSettlementMetrics`.  Returns `none` when the point
list is empty (the source returns early without updating anything).  The tank
diameter is the source's hardcoded `100` (its own comment says "This should
come from base data"). -/
noncomputable def calculateSettlementMetrics (points : List ElevationPoint) :
    Option SettlementMetrics :=
  if points.length = 0 then none else
  let settlements := points.map fun p => p.settlement
  let maxSettlement := Calculations.jsMaxList settlements
  let minSettlement := jsMinList settlements
  let differentialSettlement := maxSettlement - minSettlement
  let uniformSettlement := settlements.foldl (· + ·) 0 / (settlements.length : ℚ)
  let tankDiameter : ℚ := 100
  let tiltPercentage := differentialSettlement / tankDiameter * 100
  let planarTilt := calculatePlanarTilt points
  some
    { maxSettlement := maxSettlement, minSettlement := minSettlement
      differentialSettlement := differentialSettlement
      tiltPercentage := tiltPercentage, uniformSettlement := uniformSettlement
      planarTilt := planarTilt
      outOfPlaneSettlement := calculateOutOfPlaneSettlement points planarTilt }

/-- The API 653 limit check rendered by the form:
`formData.tiltPercentage <= 1 ? 'PASS' : 'FAIL'` with the threshold written as
the literal 1. -/
def tiltCompliancePass (m : SettlementMetrics) : Bool :=
  decide (m.tiltPercentage ≤ 1)

end Settlement

/-! ## Theorems for the claims -/

/-- Claim C1: shell known-value regression.  For fillHeight = 40 ft,
diameter = 120 ft, specific gravity 1.0, E = 0.85, S = 26700 psi,
original/actual thickness 0.500/0.485 in and age 10 yr, the shell calculator
produces P = 0.433 × 1.0 × 40 = 17.32 psi, R = 720 in,
t_req = (17.32 × 720)/(26700 × 0.85 − 0.6 × 17.32) ≈ 0.550 in (within 0.001,
and exactly 0.550 after the 3-decimal rounding), and corrosion rate
((0.500 − 0.485)/10) × 1000 = 1.5 mpy. -/
theorem C1_shell_known_value_regression :
    ShellForm.calculateShell 40 1 (85/100) 120
        [⟨some 8, some 26700, some (1/2), some (97/200), some 10⟩]
      = [{ H := 40, P := 1732/100, radiusInches := 720
           requiredThickness := 21650/39383, tMin := 21650/39383, tMinRounded := 550/1000
           corrosionRate := 15/10, corrosionRateRounded := 15/10
           remainingLife := -130/3, remainingLifeRounded := 0 }]
    ∧ |(21650/39383 : ℚ) - 550/1000| < 1/1000 := by
  constructor
  · simp only [ShellForm.calculateShell, List.mapIdx_cons, List.mapIdx_nil,
      ShellForm.shellCourseCalc, mathRound, Option.getD_some, List.take_zero,
      List.foldl_nil]
    norm_num [ShellForm.ShellCourseResult.mk.injEq]
  · norm_num [abs_lt]

/-- Claim C2: the two supplied shell-thickness implementations disagree on the
corrosion-allowance convention.  On the §8 regression inputs the form component
returns t_min = t_req (which rounds to 0.550 in) while the standalone
test-script implementation returns t_min = t_req + 0.100 (which rounds to
0.650 in); in particular the two embedded functions differ at this input. -/
theorem C2_two_shell_implementations_disagree :
    (ShellForm.shellCourseCalc 40 1 (85/100) 120
        [⟨some 8, some 26700, some (1/2), some (97/200), some 10⟩] 0
        ⟨some 8, some 26700, some (1/2), some (97/200), some 10⟩).tMin
      = (ShellForm.shellCourseCalc 40 1 (85/100) 120
        [⟨some 8, some 26700, some (1/2), some (97/200), some 10⟩] 0
        ⟨some 8, some 26700, some (1/2), some (97/200), some 10⟩).requiredThickness
    ∧ (TestScript.calculateShell ⟨40, 1, 85/100, 120, 26700, 1/2, 97/200, 10⟩).tMin
      = (TestScript.calculateShell ⟨40, 1, 85/100, 120, 26700, 1/2, 97/200, 10⟩).requiredThickness
          + 100/1000
    ∧ (TestScript.calculateShell ⟨40, 1, 85/100, 120, 26700, 1/2, 97/200, 10⟩).requiredThickness
      = (ShellForm.shellCourseCalc 40 1 (85/100) 120
        [⟨some 8, some 26700, some (1/2), some (97/200), some 10⟩] 0
        ⟨some 8, some 26700, some (1/2), some (97/200), some 10⟩).requiredThickness
    ∧ (ShellForm.shellCourseCalc 40 1 (85/100) 120
        [⟨some 8, some 26700, some (1/2), some (97/200), some 10⟩] 0
        ⟨some 8, some 26700, some (1/2), some (97/200), some 10⟩).tMin
      ≠ (TestScript.calculateShell ⟨40, 1, 85/100, 120, 26700, 1/2, 97/200, 10⟩).tMin
    ∧ mathRound ((ShellForm.shellCourseCalc 40 1 (85/100) 120
        [⟨some 8, some 26700, some (1/2), some (97/200), some 10⟩] 0
        ⟨some 8, some 26700, some (1/2), some (97/200), some 10⟩).tMin * 1000) / 1000
      = 550/1000
    ∧ mathRound ((TestScript.calculateShell
        ⟨40, 1, 85/100, 120, 26700, 1/2, 97/200, 10⟩).tMin * 1000) / 1000
      = 650/1000 := by
  simp only [ShellForm.shellCourseCalc, TestScript.calculateShell, mathRound,
    Option.getD_some, List.take_zero, List.foldl_nil]
  norm_num

/-- Helper: the source's `for` loop that subtracts the course heights of the
courses below the current one equals the initial value minus the sum of those
heights. -/
lemma foldl_sub_heights (start : ℚ) (l : List ShellForm.ShellCourseInput) :
    l.foldl (fun h c => h - c.courseHeight.getD 8) start
      = start - (l.map fun c => c.courseHeight.getD 8).sum := by
  induction l generalizing start with
  | nil => simp
  | cons c l ih => simp [ih, sub_sub]

/-- Claim C5: cumulative liquid head.  For course `i` (0-indexed from the
bottom) the shell calculator computes
`H_i = max 0 (fillHeight − Σ courseHeight of courses 0..i−1)`, and a course
whose bottom is at or above the liquid surface gets `H_i = 0` and hence zero
hydrostatic pressure. -/
theorem C5_cumulative_liquid_head
    (fillHeight specificGravity jointEfficiency tankDiameter : ℚ)
    (courses : List ShellForm.ShellCourseInput) (i : ℕ)
    (c : ShellForm.ShellCourseInput) :
    (ShellForm.shellCourseCalc fillHeight specificGravity jointEfficiency tankDiameter
        courses i c).H
      = max 0 (fillHeight - ((courses.take i).map fun cc => cc.courseHeight.getD 8).sum)
    ∧ (fillHeight ≤ ((courses.take i).map fun cc => cc.courseHeight.getD 8).sum →
        (ShellForm.shellCourseCalc fillHeight specificGravity jointEfficiency tankDiameter
            courses i c).H = 0
        ∧ (ShellForm.shellCourseCalc fillHeight specificGravity jointEfficiency tankDiameter
            courses i c).P = 0) := by
  have hH : (ShellForm.shellCourseCalc fillHeight specificGravity jointEfficiency tankDiameter
      courses i c).H
      = max 0 (fillHeight - ((courses.take i).map fun cc => cc.courseHeight.getD 8).sum) := by
    simp [ShellForm.shellCourseCalc, foldl_sub_heights]
  refine ⟨hH, fun hle => ?_⟩
  have h0 : (ShellForm.shellCourseCalc fillHeight specificGravity jointEfficiency tankDiameter
      courses i c).H = 0 := by
    rw [hH]
    exact max_eq_left (sub_nonpos.mpr hle)
  refine ⟨h0, ?_⟩
  have hP : (ShellForm.shellCourseCalc fillHeight specificGravity jointEfficiency tankDiameter
      courses i c).P
      = 433/1000 * specificGravity
        * (ShellForm.shellCourseCalc fillHeight specificGravity jointEfficiency tankDiameter
            courses i c).H := by
    simp [ShellForm.shellCourseCalc]
  rw [hP, h0, mul_zero]

/-- Witness for C5: a two-course tank with 8 ft courses and a fill height of
10 ft puts the bottom of course 2 (index 2 would be above both) — here course
index 2 — above the liquid, so H = 0 and P = 0 there. -/
theorem C5_witness :
    (10 : ℚ) ≤ (([(⟨some 8, none, none, none, none⟩ : ShellForm.ShellCourseInput),
        ⟨some 8, none, none, none, none⟩].take 2).map fun cc => cc.courseHeight.getD 8).sum
    ∧ (ShellForm.shellCourseCalc 10 1 (85/100) 120
        [⟨some 8, none, none, none, none⟩, ⟨some 8, none, none, none, none⟩] 2
        ⟨some 8, none, none, none, none⟩).H = 0
    ∧ (ShellForm.shellCourseCalc 10 1 (85/100) 120
        [⟨some 8, none, none, none, none⟩, ⟨some 8, none, none, none, none⟩] 2
        ⟨some 8, none, none, none, none⟩).P = 0 := by
  have hle : (10 : ℚ) ≤ (([(⟨some 8, none, none, none, none⟩ : ShellForm.ShellCourseInput),
      ⟨some 8, none, none, none, none⟩].take 2).map fun cc => cc.courseHeight.getD 8).sum := by
    norm_num
  have h := (C5_cumulative_liquid_head 10 1 (85/100) 120
    [⟨some 8, none, none, none, none⟩, ⟨some 8, none, none, none, none⟩] 2
    ⟨some 8, none, none, none, none⟩).2 hle
  exact ⟨hle, h.1, h.2⟩

/-- Claim C3: degenerate-arithmetic sentinels.  In every embedded corrosion
calculator, a non-positive elapsed time yields a corrosion rate of exactly 0,
and a non-positive corrosion rate yields the not-applicable remaining-life
sentinel (⊤, the model of JS Infinity, for the lib calculator; 999 for the
shell, roof and nozzle calculators) — never a division error. -/
theorem C3_degenerate_arithmetic_sentinels :
    (∀ p : Calculations.CorrosionCalculationParams, p.serviceYears ≤ 0 →
        (Calculations.calculateCorrosionRate p).corrosionRate = 0)
    ∧ (∀ p : Calculations.CorrosionCalculationParams,
        (Calculations.calculateCorrosionRate p).corrosionRate ≤ 0 →
        (Calculations.calculateCorrosionRate p).remainingLife = ⊤)
    ∧ (∀ (fh sg je td : ℚ) (courses : List ShellForm.ShellCourseInput) (i : ℕ)
        (c : ShellForm.ShellCourseInput), c.age.getD 10 ≤ 0 →
        (ShellForm.shellCourseCalc fh sg je td courses i c).corrosionRate = 0)
    ∧ (∀ (fh sg je td : ℚ) (courses : List ShellForm.ShellCourseInput) (i : ℕ)
        (c : ShellForm.ShellCourseInput),
        (ShellForm.shellCourseCalc fh sg je td courses i c).corrosionRate ≤ 0 →
        (ShellForm.shellCourseCalc fh sg je td courses i c).remainingLife = 999
        ∧ (ShellForm.shellCourseCalc fh sg je td courses i c).remainingLifeRounded = 999)
    ∧ (∀ v : RoofForm.RoofInputs, ((v.roofAge.getD 20 : ℚ) : ℝ) ≤ 0 →
        (RoofForm.calculateRoof v).corrosionRateDeck = 0
        ∧ (RoofForm.calculateRoof v).corrosionRateRoof = 0)
    ∧ (∀ v : RoofForm.RoofInputs, (RoofForm.calculateRoof v).corrosionRateDeck ≤ 0 →
        (RoofForm.calculateRoof v).remainingLifeDeckOut = 999)
    ∧ (∀ v : RoofForm.RoofInputs, (RoofForm.calculateRoof v).corrosionRateRoof ≤ 0 →
        (RoofForm.calculateRoof v).remainingLifeRoofOut = 999)
    ∧ (∀ (y : ℚ) (r : NozzleCML.NozzleRecord), y ≤ 0 →
        (NozzleCML.calculateNozzleMetrics y r).corrosionRate = 0
        ∧ (NozzleCML.calculateNozzleMetrics y r).remainingLife = 999)
    ∧ (∀ (y : ℚ) (r : NozzleCML.NozzleRecord),
        r.previousThickness ≤ r.currentThickness →
        (NozzleCML.calculateNozzleMetrics y r).remainingLife = 999) := by
  refine ⟨?_, ?_, ?_, ?_, ?_, ?_, ?_, ?_, ?_⟩
  · intro p h
    simp [Calculations.calculateCorrosionRate, not_lt.2 h]
  · intro p h
    simp only [Calculations.calculateCorrosionRate] at h ⊢
    rw [if_neg (not_lt.2 h)]
    exact max_eq_right le_top
  · intro fh sg je td courses i c h
    simp [ShellForm.shellCourseCalc, not_lt.2 h]
  · intro fh sg je td courses i c h
    simp only [ShellForm.shellCourseCalc] at h ⊢
    rw [if_neg (not_lt.2 h)]
    refine ⟨rfl, ?_⟩
    norm_num [mathRound]
  · intro v h
    simp [RoofForm.calculateRoof, not_lt.2 h]
  · intro v h
    simp only [RoofForm.calculateRoof] at h ⊢
    rw [if_neg (not_lt.2 h)]
    norm_num [mathRoundR]
  · intro v h
    simp only [RoofForm.calculateRoof] at h ⊢
    rw [if_neg (not_lt.2 h)]
    norm_num [mathRoundR]
  · intro y r h
    constructor
    · norm_num [NozzleCML.calculateNozzleMetrics, not_lt.2 h, mathRound]
    · simp only [NozzleCML.calculateNozzleMetrics]
      rw [if_neg (not_lt.2 h)]
      norm_num [mathRound]
  · intro y r h
    have hloss : (r.previousThickness - r.currentThickness) * 1000 ≤ 0 :=
      mul_nonpos_iff.2 (Or.inr ⟨sub_nonpos.2 h, by norm_num⟩)
    simp only [NozzleCML.calculateNozzleMetrics]
    by_cases hy : 0 < y
    · rw [if_pos hy]
      have hrate : (r.previousThickness - r.currentThickness) * 1000 / y ≤ 0 :=
        div_nonpos_iff.2 (Or.inr ⟨hloss, hy.le⟩)
      rw [if_neg (not_lt.2 hrate)]
      norm_num [mathRound]
    · rw [if_neg hy]
      norm_num [mathRound]

/-- Witness for C3: concrete zero-age inputs for each calculator produce a zero
corrosion rate and the not-applicable remaining-life sentinel. -/
theorem C3_witness :
    (Calculations.calculateCorrosionRate ⟨1/2, 2/5, 0, 1/10⟩).corrosionRate = 0
    ∧ (Calculations.calculateCorrosionRate ⟨1/2, 2/5, 0, 1/10⟩).remainingLife = ⊤
    ∧ (ShellForm.shellCourseCalc 40 1 (85/100) 120 [] 0
        ⟨some 8, some 26700, some (1/2), some (2/5), some 0⟩).corrosionRate = 0
    ∧ (ShellForm.shellCourseCalc 40 1 (85/100) 120 [] 0
        ⟨some 8, some 26700, some (1/2), some (2/5), some 0⟩).remainingLifeRounded = 999
    ∧ (RoofForm.calculateRoof ⟨none, none, none, none, some 0, none, none, none, "yes"⟩).corrosionRateDeck = 0
    ∧ (RoofForm.calculateRoof ⟨none, none, none, none, some 0, none, none, none, "yes"⟩).remainingLifeDeckOut = 999
    ∧ (RoofForm.calculateRoof ⟨none, none, none, none, some 0, none, none, none, "yes"⟩).remainingLifeRoofOut = 999
    ∧ (NozzleCML.calculateNozzleMetrics 0 ⟨some 2, "40", 1/2, 2/5⟩).corrosionRate = 0
    ∧ (NozzleCML.calculateNozzleMetrics 0 ⟨some 2, "40", 1/2, 2/5⟩).remainingLife = 999
    ∧ (NozzleCML.calculateNozzleMetrics 10 ⟨some 2, "40", 2/5, 2/5⟩).remainingLife = 999 := by
  have h := C3_degenerate_arithmetic_sentinels
  have hlib1 := h.1 ⟨1/2, 2/5, 0, 1/10⟩ (by norm_num)
  have hlib2 := h.2.1 ⟨1/2, 2/5, 0, 1/10⟩ (le_of_eq hlib1)
  have hsh1 := h.2.2.1 40 1 (85/100) 120 [] 0
    ⟨some 8, some 26700, some (1/2), some (2/5), some 0⟩ (by norm_num)
  have hsh2 := h.2.2.2.1 40 1 (85/100) 120 [] 0
    ⟨some 8, some 26700, some (1/2), some (2/5), some 0⟩ (le_of_eq hsh1)
  have hroof1 := h.2.2.2.2.1 ⟨none, none, none, none, some 0, none, none, none, "yes"⟩
    (by norm_num)
  have hroof2 := h.2.2.2.2.2.1 ⟨none, none, none, none, some 0, none, none, none, "yes"⟩
    (le_of_eq hroof1.1)
  have hroof3 := h.2.2.2.2.2.2.1 ⟨none, none, none, none, some 0, none, none, none, "yes"⟩
    (le_of_eq hroof1.2)
  have hnoz1 := h.2.2.2.2.2.2.2.1 0 ⟨some 2, "40", 1/2, 2/5⟩ (by norm_num)
  have hnoz2 := h.2.2.2.2.2.2.2.2 10 ⟨some 2, "40", 2/5, 2/5⟩ (by norm_num)
  exact ⟨hlib1, hlib2, hsh1, hsh2.2, hroof1.1, hroof2, hroof3, hnoz1.1, hnoz1.2, hnoz2⟩

/-- Claim C4, counterexample: the nozzle calculator does not clamp remaining
life.  A nozzle whose current thickness (0.090 in) is below its
schedule-derived t_min (0.190 in for a 2 in schedule-40 nozzle), with a
positive corrosion rate (41 mpy over 10 yr), is reported with remaining life
−2.4 years — negative, not 0. -/
theorem C4_counterexample :
    (NozzleCML.calculateNozzleMetrics 10 ⟨some 2, "40", 1/2, 9/100⟩).tMin = 19/100
    ∧ (NozzleCML.calculateNozzleMetrics 10 ⟨some 2, "40", 1/2, 9/100⟩).corrosionRate = 41
    ∧ (NozzleCML.calculateNozzleMetrics 10 ⟨some 2, "40", 1/2, 9/100⟩).remainingLife = -12/5
    ∧ (-12/5 : ℚ) < 0 := by
  have hlook : NozzleCML.scheduleFactors.lookup "40" = some (95/1000) := by rfl
  norm_num [NozzleCML.calculateNozzleMetrics, NozzleCML.calculateNozzleTmin, hlook,
    mathRound]

/-- Claim C4, amended: only the shell form clamps the reported remaining life
to both bounds: its value always lies in [0, 999].  The roof calculator
applies the 999 ceiling but no 0 floor, and the nozzle calculator applies
neither bound (see the counterexample); the lib calculator floors at 0 but has
no ceiling. -/
theorem C4_remaining_life_clamping
    (fh sg je td : ℚ) (courses : List ShellForm.ShellCourseInput) (i : ℕ)
    (c : ShellForm.ShellCourseInput) (v : RoofForm.RoofInputs)
    (p : Calculations.CorrosionCalculationParams) :
    (0 ≤ (ShellForm.shellCourseCalc fh sg je td courses i c).remainingLifeRounded
      ∧ (ShellForm.shellCourseCalc fh sg je td courses i c).remainingLifeRounded ≤ 999)
    ∧ (RoofForm.calculateRoof v).remainingLifeDeckOut ≤ 999
    ∧ (RoofForm.calculateRoof v).remainingLifeRoofOut ≤ 999
    ∧ 0 ≤ (Calculations.calculateCorrosionRate p).remainingLife := by
  refine ⟨⟨?_, ?_⟩, ?_, ?_, ?_⟩
  · simp only [ShellForm.shellCourseCalc]
    exact le_max_left 0 _
  · simp only [ShellForm.shellCourseCalc]
    exact max_le (by norm_num) (min_le_left _ _)
  · simp only [RoofForm.calculateRoof]
    exact min_le_left _ _
  · simp only [RoofForm.calculateRoof]
    exact min_le_left _ _
  · simp only [Calculations.calculateCorrosionRate]
    exact le_max_left 0 _

/-- Claim C6, counterexample: a two-point survey with a genuine slope
(settlements 1 ft and 0 ft) gets planar tilt 0 — a plain number, not a flagged
"undefined" result — and this is the very same value a legitimately flat
three-point survey gets, so the insufficient-data case is indistinguishable
from a computed zero angle. -/
theorem C6_counterexample :
    Settlement.calculatePlanarTilt
        [⟨0, 100, 99, 1, 0⟩, ⟨180, 100, 100, 0, 0⟩] = 0
    ∧ Settlement.calculatePlanarTilt
        [⟨0, 100, 100, 0, 0⟩, ⟨90, 100, 100, 0, 0⟩, ⟨180, 100, 100, 0, 0⟩] = 0 := by
  constructor
  · simp [Settlement.calculatePlanarTilt]
  · simp [Settlement.calculatePlanarTilt]

/-- Claim C6, amended: for fewer than 3 elevation points `calculatePlanarTilt`
returns the plain value 0 rather than a fabricated nonzero angle — but there
is no explicit "undefined" flag distinguishing it from a computed zero tilt. -/
theorem C6_planar_tilt_under_three_points
    (points : List Settlement.ElevationPoint) (h : points.length < 3) :
    Settlement.calculatePlanarTilt points = 0 := by
  simp only [Settlement.calculatePlanarTilt]
  rw [if_pos h]

/-- Witness for C6: a concrete two-point list has fewer than 3 points and gets
planar tilt 0. -/
theorem C6_witness :
    ([(⟨0, 100, 99, 1, 0⟩ : Settlement.ElevationPoint), ⟨90, 100, 98, 2, 0⟩].length < 3)
    ∧ Settlement.calculatePlanarTilt
        [⟨0, 100, 99, 1, 0⟩, ⟨90, 100, 98, 2, 0⟩] = 0 :=
  ⟨by norm_num, C6_planar_tilt_under_three_points
    [⟨0, 100, 99, 1, 0⟩, ⟨90, 100, 98, 2, 0⟩] (by norm_num)⟩

/-- Claim C7: the settlement tilt uses a hardcoded tank diameter and a
hardcoded threshold.  For a survey with settlements 0 ft and 2 ft the code
reports tiltPercentage = (2 / 100) × 100 = 2 — using the literal
`tankDiameter = 100` (whose own comment says it should come from base data) —
and the rendered compliance check is the literal `tiltPercentage <= 1`.  Had
the tank's supplied diameter (e.g. 120 ft) been used, the claim's formula
would give (2 / 120) × 100 ≠ 2. -/
theorem C7_hardcoded_diameter_and_threshold :
    (Settlement.calculateSettlementMetrics
        [⟨0, 100, 100, 0, 0⟩, ⟨180, 102, 100, 2, 0⟩]).map
        (fun m => m.differentialSettlement) = some 2
    ∧ (Settlement.calculateSettlementMetrics
        [⟨0, 100, 100, 0, 0⟩, ⟨180, 102, 100, 2, 0⟩]).map
        (fun m => m.tiltPercentage) = some 2
    ∧ (Settlement.calculateSettlementMetrics
        [⟨0, 100, 100, 0, 0⟩, ⟨180, 102, 100, 2, 0⟩]).map
        Settlement.tiltCompliancePass = some false
    ∧ (2 : ℚ) ≠ 2 / 120 * 100 := by
  norm_num [Settlement.calculateSettlementMetrics, Calculations.jsMaxList,
    Settlement.jsMinList, Settlement.tiltCompliancePass, max_def, min_def]

/-- Helper: the fold behind JS `Math.max(...)` returns one of its arguments. -/
lemma foldl_max_mem (x : ℚ) (xs : List ℚ) : xs.foldl max x ∈ x :: xs := by
  induction xs generalizing x with
  | nil => simp
  | cons y ys ih =>
    have h := ih (max x y)
    rcases max_choice x y with hxy | hxy <;>
      · rw [List.foldl_cons]
        rcases List.mem_cons.1 h with h1 | h1
        · rw [h1, hxy]
          simp
        · simp [h1]

/-- Helper: the fold behind JS `Math.max(...)` bounds all its arguments. -/
lemma le_foldl_max (x : ℚ) (xs : List ℚ) : ∀ y ∈ x :: xs, y ≤ xs.foldl max x := by
  induction xs generalizing x with
  | nil =>
    intro y hy
    simp at hy
    simp [hy]
  | cons z zs ih =>
    intro y hy
    rw [List.foldl_cons]
    rcases List.mem_cons.1 hy with h1 | h1
    · calc y = x := h1
        _ ≤ max x z := le_max_left x z
        _ ≤ zs.foldl max (max x z) := ih (max x z) (max x z) (List.mem_cons_self _ _)
    · rcases List.mem_cons.1 h1 with h2 | h2
      · calc y = z := h2
          _ ≤ max x z := le_max_right x z
          _ ≤ zs.foldl max (max x z) := ih (max x z) (max x z) (List.mem_cons_self _ _)
      · exact ih (max x z) y (List.mem_cons_of_mem _ h2)

/-- Claim C8, counterexample: `calculateStatistics` rounds its outputs to two
decimals, so on the input [1/3] the returned average is 0.33, not the
arithmetic mean 1/3 (and likewise for the maximum and the 95th percentile,
which are the element 1/3 itself before rounding). -/
theorem C8_counterexample :
    (Calculations.calculateStatistics [1/3]).average = 33/100
    ∧ (Calculations.calculateStatistics [1/3]).maximum = 33/100
    ∧ (Calculations.calculateStatistics [1/3]).percentile95 = 33/100
    ∧ ([(1/3 : ℚ)].sum / (([(1/3 : ℚ)] : List ℚ).length : ℚ)) = 1/3
    ∧ (33/100 : ℚ) ≠ 1/3 := by
  norm_num [Calculations.calculateStatistics, Calculations.jsSortNumericAsc,
    Calculations.jsSpreadCopy, Calculations.jsMaxList, toFixed2, mathRound]

/-- Claim C8, amended: `calculateStatistics` returns the arithmetic mean, the
maximum element and the nearest-rank 95th percentile (ascending sort, index
floor(0.95 × n) clamped to the last index), each rounded to 2 decimal places
(halves toward +∞); the empty list yields the all-zero result. -/
theorem C8_statistics (rates : List ℚ) :
    (rates = [] → Calculations.calculateStatistics rates = ⟨0, 0, 0⟩)
    ∧ (rates ≠ [] →
        (Calculations.calculateStatistics rates).average
          = toFixed2 (rates.sum / (rates.length : ℚ))
        ∧ (∃ m, m ∈ rates ∧ (∀ x ∈ rates, x ≤ m)
            ∧ (Calculations.calculateStatistics rates).maximum = toFixed2 m)
        ∧ (∃ s : List ℚ, s.Perm rates ∧ s.Sorted (· ≤ ·)
            ∧ (Calculations.calculateStatistics rates).percentile95
              = toFixed2 (s.getD
                  (min (⌊(95/100 : ℚ) * (s.length : ℚ)⌋.toNat) (s.length - 1)) 0))) := by
  constructor
  · intro h
    subst h
    rfl
  · intro hne
    have hlen : ¬ rates.length = 0 := by
      simpa [List.length_eq_zero] using hne
    refine ⟨?_, ?_, ?_⟩
    · simp only [Calculations.calculateStatistics, if_neg hlen]
      rw [List.sum_eq_foldl]
    · obtain ⟨x, xs, rfl⟩ := List.exists_cons_of_ne_nil hne
      refine ⟨xs.foldl max x, foldl_max_mem x xs, le_foldl_max x xs, ?_⟩
      simp only [Calculations.calculateStatistics, if_neg hlen, Calculations.jsMaxList]
    · refine ⟨Calculations.jsSortNumericAsc rates, List.mergeSort_perm rates _, ?_, ?_⟩
      · have h := @List.sorted_mergeSort ℚ (fun a b : ℚ => decide (a ≤ b))
          (by intro a b c hab hbc; simp only [decide_eq_true_eq] at hab hbc ⊢
              exact le_trans hab hbc)
          (by intro a b; simpa using le_total a b) rates
        simpa [Calculations.jsSortNumericAsc, List.Sorted, decide_eq_true_eq] using h
      · simp only [Calculations.calculateStatistics, if_neg hlen,
          Calculations.jsSpreadCopy]

/-- Witness for C8: the amended statement evaluated at the empty list and at
the singleton list [2]. -/
theorem C8_witness :
    Calculations.calculateStatistics [] = ⟨0, 0, 0⟩
    ∧ ((Calculations.calculateStatistics [2]).average
          = toFixed2 (([2] : List ℚ).sum / ((([2] : List ℚ)).length : ℚ))
        ∧ (∃ m, m ∈ ([2] : List ℚ) ∧ (∀ x ∈ ([2] : List ℚ), x ≤ m)
            ∧ (Calculations.calculateStatistics [2]).maximum = toFixed2 m)
        ∧ (∃ s : List ℚ, s.Perm ([2] : List ℚ) ∧ s.Sorted (· ≤ ·)
            ∧ (Calculations.calculateStatistics [2]).percentile95
              = toFixed2 (s.getD
                  (min (⌊(95/100 : ℚ) * (s.length : ℚ)⌋.toNat) (s.length - 1)) 0))) :=
  ⟨(C8_statistics []).1 rfl, (C8_statistics [2]).2 (List.cons_ne_nil 2 [])⟩

/-- Claim C9, counterexample: the shell form's returned (2-decimal rounded)
corrosion rate is not negative for every impossible-growth input.  With
original 0.500 in, actual 0.50002 in and age 10 yr the raw rate is −0.002 mpy,
but the returned rounded rate is 0.00 — the tiny negative rate is hidden by
the display rounding. -/
theorem C9_counterexample :
    ((1/2 : ℚ) < 25001/50000)
    ∧ ((0 : ℚ) < 10)
    ∧ (ShellForm.shellCourseCalc 40 1 (85/100) 120
        [⟨some 8, some 26700, some (1/2), some (25001/50000), some 10⟩] 0
        ⟨some 8, some 26700, some (1/2), some (25001/50000), some 10⟩).corrosionRate
      = -1/500
    ∧ (ShellForm.shellCourseCalc 40 1 (85/100) 120
        [⟨some 8, some 26700, some (1/2), some (25001/50000), some 10⟩] 0
        ⟨some 8, some 26700, some (1/2), some (25001/50000), some 10⟩).corrosionRateRounded
      = 0 := by
  norm_num [ShellForm.shellCourseCalc, mathRound]

/-- Claim C9, amended: whenever the actual/current thickness exceeds the
original and the elapsed age is positive, both corrosion calculators compute a
strictly negative corrosion rate (the lib calculator also returns it as such;
the shell form returns it rounded to 2 decimals, which maps rates in
(−0.005, 0) to 0.00). -/
theorem C9_negative_corrosion_surfaced :
    (∀ p : Calculations.CorrosionCalculationParams,
        p.originalThickness < p.currentThickness → 0 < p.serviceYears →
        (Calculations.calculateCorrosionRate p).corrosionRate < 0)
    ∧ (∀ (fh sg je td : ℚ) (courses : List ShellForm.ShellCourseInput) (i : ℕ)
        (c : ShellForm.ShellCourseInput),
        c.originalThickness.getD (1/2) < c.actualThickness.getD (45/100) →
        0 < c.age.getD 10 →
        (ShellForm.shellCourseCalc fh sg je td courses i c).corrosionRate < 0) := by
  constructor
  · intro p h hy
    simp only [Calculations.calculateCorrosionRate]
    rw [if_pos hy]
    apply div_neg_of_neg_of_pos _ hy
    nlinarith
  · intro fh sg je td courses i c h hage
    simp only [ShellForm.shellCourseCalc]
    rw [if_pos hage]
    have hdiv := div_neg_of_neg_of_pos (sub_neg.2 h) hage
    nlinarith

/-- Witness for C9: with original thickness 0.5 in, current 0.6 in and 10
years of service, both calculators compute a negative corrosion rate. -/
theorem C9_witness :
    (Calculations.calculateCorrosionRate ⟨1/2, 3/5, 10, 1/10⟩).corrosionRate < 0
    ∧ (ShellForm.shellCourseCalc 40 1 (85/100) 120 [] 0
        ⟨some 8, some 26700, some (1/2), some (3/5), some 10⟩).corrosionRate < 0 :=
  ⟨C9_negative_corrosion_surfaced.1 ⟨1/2, 3/5, 10, 1/10⟩ (by norm_num) (by norm_num),
   C9_negative_corrosion_surfaced.2 40 1 (85/100) 120 [] 0
     ⟨some 8, some 26700, some (1/2), some (3/5), some 10⟩ (by norm_num) (by norm_num)⟩

/-- Claim C10: `calculateStatistics` does not modify the caller's array.  In
the explicit array-store model, the caller's array reference holds the same
list after the call as before, and the returned statistics agree with the pure
function of that unchanged list (the mutating `.sort` is applied only to the
freshly allocated spread copy). -/
theorem C10_statistics_input_array_unchanged
    (h : List (List ℚ)) (r : ℕ) (hr : r < h.length) :
    Calculations.heapGet (Calculations.calculateStatisticsHeap h r).1 r
      = Calculations.heapGet h r
    ∧ (Calculations.calculateStatisticsHeap h r).2
      = Calculations.calculateStatistics (Calculations.heapGet h r) := by
  by_cases hz : (Calculations.heapGet h r).length = 0
  · constructor
    · simp only [Calculations.calculateStatisticsHeap, if_pos hz]
    · simp only [Calculations.calculateStatisticsHeap, if_pos hz,
        Calculations.calculateStatistics]
  · have e1 : Calculations.heapGet (h ++ [Calculations.heapGet h r]) h.length
        = Calculations.heapGet h r := by
      simp [Calculations.heapGet, List.getD_eq_getElem?_getD, List.getElem?_concat_length]
    have e2 : ∀ v, Calculations.heapGet
        ((h ++ [Calculations.heapGet h r]).set h.length v) r
        = Calculations.heapGet h r := by
      intro v
      simp [Calculations.heapGet, List.getD_eq_getElem?_getD,
        List.getElem?_set_ne hr.ne', List.getElem?_append, hr]
    have e3 : ∀ v, Calculations.heapGet
        ((h ++ [Calculations.heapGet h r]).set h.length v) h.length = v := by
      intro v
      have hlt : h.length < (h ++ [Calculations.heapGet h r]).length := by simp
      simp [Calculations.heapGet, List.getD_eq_getElem?_getD, List.getElem?_set_self hlt]
    constructor
    · simp only [Calculations.calculateStatisticsHeap, Calculations.heapAlloc,
        Calculations.heapSet, Calculations.jsSpreadCopy, if_neg hz]
      rw [e2]
    · simp only [Calculations.calculateStatisticsHeap, Calculations.heapAlloc,
        Calculations.heapSet, Calculations.jsSpreadCopy, if_neg hz,
        Calculations.calculateStatistics]
      rw [e1, e3, e2]

/-- Witness for C10: on a one-array heap holding [1, 2], the call leaves the
caller's array unchanged and returns the pure-function result. -/
theorem C10_witness :
    (0 < ([[(1:ℚ), 2]] : List (List ℚ)).length)
    ∧ (Calculations.heapGet (Calculations.calculateStatisticsHeap [[(1:ℚ), 2]] 0).1 0
        = Calculations.heapGet [[(1:ℚ), 2]] 0
      ∧ (Calculations.calculateStatisticsHeap [[(1:ℚ), 2]] 0).2
        = Calculations.calculateStatistics (Calculations.heapGet [[(1:ℚ), 2]] 0)) :=
  ⟨by norm_num, C10_statistics_input_array_unchanged [[(1:ℚ), 2]] 0 (by norm_num)⟩

end ReportArchitect
